import Mathlib

/-!
Verification of the accounting core of the marinade-sdk repository
(`src/libs/marinade-sdk/src/state/marinade.rs` and
`src/libs/marinade-sdk/src/checks.rs`) against its specification.

Machine integers are modelled as `Nat` (for `u64`) and `Int` (for `i128`)
with explicit `2^64` bounds where overflow matters.  A `u64` checked
operation returns `Option Nat` (`none` models the failing checked op);
a fatal `expect` on a checked op is modelled by propagating the `Option`;
a recoverable error path is modelled with `Except`.  Public keys and other
opaque identifiers are modelled as `Nat` with decidable equality.
-/

namespace Marinade2Proof

/-- `2^64`, the modulus of the `u64` type. -/
def U64_MOD : Nat := 18446744073709551616

/-- `u64::checked_add`: `some (a + b)` when the mathematical sum fits in
`u64`, `none` on overflow. -/
def checked_add (a b : Nat) : Option Nat :=
  if a + b < U64_MOD then some (a + b) else none

/-- `u64::checked_sub`: `some (a - b)` when `b ≤ a`, `none` on underflow. -/
def checked_sub (a b : Nat) : Option Nat :=
  if b ≤ a then some (a - b) else none

/-- Recoverable protocol errors from `error.rs` (`CommonError`) that the
verified functions raise.  Only the variants the embedded code uses are
modelled. -/
inductive CommonError
  | calculationFailure
  | stakeNotDelegated
  | stakeAccountNotUpdatedYet
  | numberTooLow
  deriving DecidableEq, Repr

/-- The host `ProgramError` type, restricted to the variants the embedded
code produces.  `common e` models `CommonError::into::<ProgramError>()`. -/
inductive ProgramError
  | invalidArgument
  | invalidInstructionData
  | invalidAccountData
  | custom (code : Nat)
  | common (e : CommonError)
  deriving DecidableEq, Repr

/-- Decidable equality for `Except` results, so that concrete runs of the
fallible operations can be evaluated by `decide`. -/
instance exceptDecEq {ε α : Type} [DecidableEq ε] [DecidableEq α] :
    DecidableEq (Except ε α) := fun x y =>
  match x, y with
  | .ok a, .ok b =>
      if h : a = b then .isTrue (by rw [h])
      else .isFalse (fun hh => h (Except.ok.inj hh))
  | .error a, .error b =>
      if h : a = b then .isTrue (by rw [h])
      else .isFalse (fun hh => h (Except.error.inj hh))
  | .ok _, .error _ => .isFalse (fun hh => Except.noConfusion hh)
  | .error _, .ok _ => .isFalse (fun hh => Except.noConfusion hh)

/-- The slice of `StakeSystem` (`state/stake_system.rs`) that
`Marinade` reads: the normal-path cooling-down total. -/
structure StakeSystem where
  delayed_unstake_cooling_down : Nat
  deriving DecidableEq, Repr

/-- The slice of `ValidatorSystem` (`state/validator_system.rs`) that
`Marinade` reads: the total actively delegated balance. -/
structure ValidatorSystem where
  total_active_balance : Nat
  deriving DecidableEq, Repr

/-- The `Marinade` ledger record from `state/marinade.rs`.  Pubkey fields
are modelled as `Nat`; fields whose types live outside the verified core
and that no verified function reads (`reward_fee`, `liq_pool`, bump seeds,
the remaining address fields) are omitted.  All `u64` fields are `Nat`
with explicit `< 2^64` bounds added as hypotheses where they matter. -/
structure Marinade where
  msol_mint : Nat
  treasury_msol_account : Nat
  rent_exempt_for_token_acc : Nat
  stake_system : StakeSystem
  validator_system : ValidatorSystem
  available_reserve_balance : Nat
  msol_supply : Nat
  msol_price : Nat
  circulating_ticket_count : Nat
  circulating_ticket_balance : Nat
  lent_from_reserve : Nat
  min_deposit : Nat
  min_withdraw : Nat
  staking_sol_cap : Nat
  emergency_cooling_down : Nat
  deriving DecidableEq, Repr

namespace Marinade

/-- `Marinade::total_cooling_down`: checked sum of the two cooling-down
counters; `none` models the fatal `expect` on overflow. -/
def total_cooling_down (s : Marinade) : Option Nat :=
  checked_add s.stake_system.delayed_unstake_cooling_down s.emergency_cooling_down

/-- `Marinade::total_lamports_under_control`: checked sum
`total_active_balance + total_cooling_down() + available_reserve_balance`;
`none` models the fatal `expect` on overflow of either partial sum. -/
def total_lamports_under_control (s : Marinade) : Option Nat := do
  let cd ← s.total_cooling_down
  let a ← checked_add s.validator_system.total_active_balance cd
  checked_add a s.available_reserve_balance

/-- `Marinade::check_staking_cap`: the outer `none` models the fatal
overflow inside `total_lamports_under_control`; the inner `Except` models
the returned `ProgramResult` (`InvalidArgument` when the checked add of
the incoming amount fails, `Custom 3782` when the cap is exceeded). -/
def check_staking_cap (s : Marinade) (transfering_lamports : Nat) :
    Option (Except ProgramError Unit) := do
  let t ← s.total_lamports_under_control
  match checked_add t transfering_lamports with
  | none => pure (.error .invalidArgument)
  | some result_amount =>
      if result_amount > s.staking_sol_cap then
        pure (.error (.custom 3782))
      else
        pure (.ok ())

/-- `Marinade::total_virtual_staked_lamports`:
`total_lamports_under_control().saturating_sub(circulating_ticket_balance)`.
`Nat` subtraction is exactly `u64::saturating_sub` on in-range values. -/
def total_virtual_staked_lamports (s : Marinade) : Option Nat := do
  let t ← s.total_lamports_under_control
  pure (t - s.circulating_ticket_balance)

/-- The `raw` intermediate of `Marinade::stake_delta`:
`reserve_balance.saturating_sub(rent_exempt_for_token_acc) as i128
+ delayed_unstake_cooling_down as i128 - circulating_ticket_balance as
i128`.  `u64::saturating_sub` is truncated `Nat` subtraction, performed
before the cast to the signed width. -/
def stake_delta_raw (s : Marinade) (reserve_balance : Nat) : Int :=
  ((reserve_balance - s.rent_exempt_for_token_acc : Nat) : Int)
    + (s.stake_system.delayed_unstake_cooling_down : Int)
    - (s.circulating_ticket_balance : Int)

/-- `Marinade::stake_delta`: all intermediate arithmetic is `i128` in
the source, modelled as `Int` (overflow-freedom for `u64` fields is
proved separately). -/
def stake_delta (s : Marinade) (reserve_balance : Nat) : Int :=
  let raw := stake_delta_raw s reserve_balance
  if raw ≥ 0 then
    raw
  else
    let with_emergency := raw + (s.emergency_cooling_down : Int)
    min with_emergency 0

/-- `Marinade::on_transfer_to_reserve`: checked increment of
`available_reserve_balance`; `none` models the fatal `expect`. -/
def on_transfer_to_reserve (s : Marinade) (amount : Nat) : Option Marinade := do
  let b ← checked_add s.available_reserve_balance amount
  pure { s with available_reserve_balance := b }

/-- `Marinade::on_transfer_from_reserve`: checked decrement of
`available_reserve_balance`; underflow is the recoverable
`CommonError::CalculationFailure`, so the record is returned unchanged
only through the error (the source returns before assigning). -/
def on_transfer_from_reserve (s : Marinade) (amount : Nat) :
    Except ProgramError Marinade :=
  match checked_sub s.available_reserve_balance amount with
  | none => .error (.common .calculationFailure)
  | some b => .ok { s with available_reserve_balance := b }

/-- `Marinade::on_msol_mint`: checked increment of `msol_supply`;
`none` models the fatal `expect`. -/
def on_msol_mint (s : Marinade) (amount : Nat) : Option Marinade := do
  let b ← checked_add s.msol_supply amount
  pure { s with msol_supply := b }

/-- `Marinade::on_msol_burn`: checked decrement of `msol_supply`;
underflow is the recoverable `CommonError::CalculationFailure`. -/
def on_msol_burn (s : Marinade) (amount : Nat) : Except ProgramError Marinade :=
  match checked_sub s.msol_supply amount with
  | none => .error (.common .calculationFailure)
  | some b => .ok { s with msol_supply := b }

end Marinade

/-- Modelled from the spec: `shares_from_value` of `calc.rs`, which is not
among the provided source files (only its caller
`Marinade::calc_msol_from_lamports` is).  Spec 4.1: if
`total_virtual_value == 0` (or `total_shares == 0`) return `value`
unchanged, otherwise `floor(value * total_shares / total_virtual_value)`
computed through a wide intermediate. -/
def shares_from_value (value total_virtual_value total_shares : Nat) :
    Except CommonError Nat :=
  if total_virtual_value = 0 ∨ total_shares = 0 then
    .ok value
  else
    .ok (value * total_shares / total_virtual_value)

/-- Modelled from the spec: `value_from_shares` of `calc.rs`, which is not
among the provided source files.  Spec 4.1: if `total_shares == 0` fail
(propagated error, not a panic), otherwise
`floor(shares * total_virtual_value / total_shares)` through a wide
intermediate. -/
def value_from_shares (shares total_virtual_value total_shares : Nat) :
    Except CommonError Nat :=
  if total_shares = 0 then
    .error .calculationFailure
  else
    .ok (shares * total_virtual_value / total_shares)

/-- The delegation record inside a `Stake` state
(`solana_program::stake::state::Delegation`), restricted to the fields
`check_stake_amount_and_validator` reads. -/
structure Delegation where
  voter_pubkey : Nat
  stake : Nat
  deriving DecidableEq, Repr

/-- `solana_program::stake::state::StakeState`, with the `Stake` variant
carrying just the delegation record the verified check reads. -/
inductive StakeState
  | uninitialized
  | initialized
  | stake (d : Delegation)
  | rewardsPool
  deriving DecidableEq, Repr

/-- `StakeState::delegation`: `Some` exactly on the `Stake` variant. -/
def StakeState.delegation : StakeState → Option Delegation
  | .stake d => some d
  | _ => none

/-- `check_stake_amount_and_validator` from `checks.rs`: requires a
delegation, delegated to the expected validator, with the delegated
amount equal to the expected amount, in that order of checks. -/
def check_stake_amount_and_validator (stake_state : StakeState)
    (expected_stake_amount : Nat) (validator_vote_pubkey : Nat) :
    Except ProgramError Unit :=
  match stake_state.delegation with
  | none => .error (.common .stakeNotDelegated)
  | some delegation =>
      if delegation.voter_pubkey ≠ validator_vote_pubkey then
        .error .invalidInstructionData
      else if delegation.stake ≠ expected_stake_amount then
        .error (.common .stakeAccountNotUpdatedYet)
      else
        .ok ()

/-- The SPL token program id, an opaque external constant
(`spl_token::ID`), modelled as an arbitrary fixed identifier. -/
def spl_token_ID : Nat := 1000001

/-- The slice of an SPL token account (`spl_token::state::Account`) that
`check_treasury_msol_account` reads after unpacking. -/
structure TokenAccount where
  mint : Nat
  deriving DecidableEq, Repr

/-- The slice of a host `AccountInfo` that `check_treasury_msol_account`
reads: its address, its owner program, and the outcome of
`spl_token::state::Account::unpack` on its data (`none` models data that
does not parse as a token account; the unpacker itself is an external
collaborator). -/
structure AccountInfo where
  key : Nat
  owner : Nat
  unpacked : Option TokenAccount
  deriving DecidableEq, Repr

namespace Marinade

/-- `Marinade::check_treasury_msol_account`: hard `InvalidArgument` error
when the address differs from the stored treasury account (via
`check_address`); otherwise `Ok false` when the owner is not the token
program, the data does not unpack, or the mint differs, and `Ok true`
when it unpacks with the expected mint. -/
def check_treasury_msol_account (s : Marinade) (acc : AccountInfo) :
    Except ProgramError Bool :=
  if acc.key ≠ s.treasury_msol_account then
    .error .invalidArgument
  else if acc.owner ≠ spl_token_ID then
    .ok false
  else
    match acc.unpacked with
    | some token_account =>
        if token_account.mint = s.msol_mint then .ok true else .ok false
    | none => .ok false

/-- `Marinade::calc_msol_from_lamports`: shares from value at the current
virtual price; the outer `Option` models the fatal overflow inside
`total_virtual_staked_lamports`. -/
def calc_msol_from_lamports (s : Marinade) (stake_lamports : Nat) :
    Option (Except CommonError Nat) := do
  let tvsl ← s.total_virtual_staked_lamports
  pure (shares_from_value stake_lamports tvsl s.msol_supply)

/-- `Marinade::calc_lamports_from_msol_amount`: value from shares at the
current virtual price. -/
def calc_lamports_from_msol_amount (s : Marinade) (msol_amount : Nat) :
    Option (Except CommonError Nat) := do
  let tvsl ← s.total_virtual_staked_lamports
  pure (value_from_shares msol_amount tvsl s.msol_supply)

end Marinade

/-- A concrete ledger state used to instantiate proved properties:
`total_active_balance = 1000`, `delayed_unstake_cooling_down = 100`,
`emergency_cooling_down = 30`, `available_reserve_balance = 50`,
`circulating_ticket_balance = 200`. -/
def sampleState : Marinade :=
  { msol_mint := 77
    treasury_msol_account := 88
    rent_exempt_for_token_acc := 10
    stake_system := ⟨100⟩
    validator_system := ⟨1000⟩
    available_reserve_balance := 50
    msol_supply := 500
    msol_price := 0
    circulating_ticket_count := 2
    circulating_ticket_balance := 200
    lent_from_reserve := 0
    min_deposit := 1
    min_withdraw := 1
    staking_sol_cap := 100000
    emergency_cooling_down := 30 }

/-- The computation claim C1 literally describes, for comparison with
`Marinade.stake_delta`: the full `raw` expression — including the
subtraction of the rent-exempt reserve — evaluated in signed wide (i128)
arithmetic, with no unsigned saturation. -/
def stake_delta_claimed (s : Marinade) (reserve_balance : Nat) : Int :=
  let raw : Int :=
    (reserve_balance : Int) - (s.rent_exempt_for_token_acc : Int)
      + (s.stake_system.delayed_unstake_cooling_down : Int)
      - (s.circulating_ticket_balance : Int)
  if raw ≥ 0 then
    raw
  else
    min (raw + (s.emergency_cooling_down : Int)) 0

/-- A ledger state whose rent-exempt reserve exceeds the probed reserve
balance: `rent_exempt_for_token_acc = 10` with all cooling-down, ticket
and emergency counters zero. -/
def rentShortState : Marinade :=
  { sampleState with
    stake_system := ⟨0⟩
    circulating_ticket_balance := 0
    emergency_cooling_down := 0 }

/-- C1 counterexample: at `rentShortState` with a real reserve balance of
`0 < rent_exempt_for_token_acc = 10`, the code saturates the subtraction
to `0` and returns `0`, while the claim's signed-arithmetic formula gives
`raw = -10` and would return `-10`. -/
theorem stake_delta_signed_raw_counterexample :
    Marinade.stake_delta rentShortState 0 = 0 ∧
    stake_delta_claimed rentShortState 0 = -10 ∧
    Marinade.stake_delta rentShortState 0 ≠ stake_delta_claimed rentShortState 0 := by
  decide

/-- C1 (amended): `stake_delta` computes
`raw = saturating_sub(reserve_balance, rent_exempt_for_token_acc)
+ delayed_unstake_cooling_down − circulating_ticket_balance` (the rent
subtraction saturating at zero in `u64` before the cast to i128, so the
claimed signed formula holds whenever `rent_exempt_for_token_acc ≤
reserve_balance`); if `raw ≥ 0` it returns `raw`, and if `raw < 0` it
returns `min (raw + emergency_cooling_down) 0`, never a positive value
from the emergency branch. -/
theorem stake_delta_spec (s : Marinade) (reserve_balance : Nat) :
    (s.rent_exempt_for_token_acc ≤ reserve_balance →
      Marinade.stake_delta_raw s reserve_balance =
        (reserve_balance : Int) - (s.rent_exempt_for_token_acc : Int)
          + (s.stake_system.delayed_unstake_cooling_down : Int)
          - (s.circulating_ticket_balance : Int)) ∧
    (0 ≤ Marinade.stake_delta_raw s reserve_balance →
      s.stake_delta reserve_balance = Marinade.stake_delta_raw s reserve_balance) ∧
    (Marinade.stake_delta_raw s reserve_balance < 0 →
      s.stake_delta reserve_balance =
        min (Marinade.stake_delta_raw s reserve_balance + (s.emergency_cooling_down : Int)) 0 ∧
      s.stake_delta reserve_balance ≤ 0) := by
  refine ⟨?_, ?_, ?_⟩
  · intro hge
    simp only [Marinade.stake_delta_raw]
    omega
  · intro hle
    simp only [Marinade.stake_delta]
    rw [if_pos hle]
  · intro hlt
    simp only [Marinade.stake_delta]
    rw [if_neg (by omega)]
    exact ⟨rfl, by omega⟩

/-- Witness for C1 at `sampleState` probed with a real reserve balance of
`10`: `raw = (10 − 10) + 100 − 200 = −100 < 0`, and with
`emergency_cooling_down = 30` the result is `min (−70) 0 = −70 ≤ 0`
(the spec's own worked example). -/
theorem stake_delta_spec_witness :
    Marinade.stake_delta_raw sampleState 10 = -100 ∧
    Marinade.stake_delta sampleState 10 = -70 ∧
    Marinade.stake_delta sampleState 10 ≤ 0 := by
  have h0 := (stake_delta_spec sampleState 10).1 (by decide)
  have h := (stake_delta_spec sampleState 10).2.2 (by decide)
  exact ⟨by rw [h0]; decide, by rw [h.1]; decide, h.2⟩

/-- C10: `stake_delta` is total and panic-free for all `u64` inputs:
with every field and the probed reserve balance below `2^64`, the `raw`
intermediate, `raw + emergency_cooling_down`, and the result all lie
strictly inside the `i128` range (so no i128 overflow or abort is
possible), and when `reserve_balance < rent_exempt_for_token_acc` the
subtraction saturates to zero rather than going negative. -/
theorem stake_delta_no_overflow (s : Marinade) (reserve_balance : Nat)
    (hrb : reserve_balance < U64_MOD)
    (hd : s.stake_system.delayed_unstake_cooling_down < U64_MOD)
    (hc : s.circulating_ticket_balance < U64_MOD)
    (he : s.emergency_cooling_down < U64_MOD) :
    (reserve_balance ≤ s.rent_exempt_for_token_acc →
      Marinade.stake_delta_raw s reserve_balance =
        (s.stake_system.delayed_unstake_cooling_down : Int)
          - (s.circulating_ticket_balance : Int)) ∧
    -(2 ^ 127) ≤ Marinade.stake_delta_raw s reserve_balance ∧
    Marinade.stake_delta_raw s reserve_balance < 2 ^ 127 ∧
    -(2 ^ 127) ≤ Marinade.stake_delta_raw s reserve_balance + (s.emergency_cooling_down : Int) ∧
    Marinade.stake_delta_raw s reserve_balance + (s.emergency_cooling_down : Int) < 2 ^ 127 ∧
    -(2 ^ 127) ≤ s.stake_delta reserve_balance ∧
    s.stake_delta reserve_balance < 2 ^ 127 := by
  simp only [U64_MOD] at hrb hd hc he
  simp only [Marinade.stake_delta, Marinade.stake_delta_raw] at *
  split_ifs <;> omega

/-- Witness for C10 at `sampleState` probed with reserve balance `10`:
all bounds hold, and at `reserve_balance = 10 ≤ rent_exempt = 10` the
saturated first term vanishes so `raw = 100 − 200`. -/
theorem stake_delta_no_overflow_witness :
    Marinade.stake_delta_raw sampleState 10 = (100 : Int) - 200 ∧
    -(2 ^ 127) ≤ Marinade.stake_delta sampleState 10 ∧
    Marinade.stake_delta sampleState 10 < 2 ^ 127 := by
  have h := stake_delta_no_overflow sampleState 10 (by decide) (by decide) (by decide)
    (by decide)
  exact ⟨by rw [h.1 (by decide)]; decide, h.2.2.2.2.2.1, h.2.2.2.2.2.2⟩

/-- C4: for every ledger state, `total_lamports_under_control()` returns
the sum `total_active_balance + delayed_unstake_cooling_down +
emergency_cooling_down + available_reserve_balance` whenever that sum
fits in `u64`, and aborts fatally (returns no value) whenever any partial
sum overflows `u64`. -/
theorem total_lamports_under_control_spec (s : Marinade) :
    s.total_lamports_under_control =
      if s.validator_system.total_active_balance
          + s.stake_system.delayed_unstake_cooling_down
          + s.emergency_cooling_down
          + s.available_reserve_balance < U64_MOD then
        some (s.validator_system.total_active_balance
          + s.stake_system.delayed_unstake_cooling_down
          + s.emergency_cooling_down
          + s.available_reserve_balance)
      else none := by
  by_cases h1 : s.stake_system.delayed_unstake_cooling_down
      + s.emergency_cooling_down < U64_MOD
  · by_cases h2 : s.validator_system.total_active_balance
        + (s.stake_system.delayed_unstake_cooling_down
          + s.emergency_cooling_down) < U64_MOD
    · by_cases h3 : s.validator_system.total_active_balance
          + (s.stake_system.delayed_unstake_cooling_down
            + s.emergency_cooling_down)
          + s.available_reserve_balance < U64_MOD
      · rw [if_pos (by omega)]
        simp only [Marinade.total_lamports_under_control, Marinade.total_cooling_down,
          checked_add, Option.bind_eq_bind, if_pos h1, Option.some_bind, if_pos h2,
          if_pos h3, Option.some.injEq]
        omega
      · rw [if_neg (by omega)]
        simp only [Marinade.total_lamports_under_control, Marinade.total_cooling_down,
          checked_add, Option.bind_eq_bind, if_pos h1, Option.some_bind, if_pos h2,
          if_neg h3]
    · rw [if_neg (by omega)]
      simp only [Marinade.total_lamports_under_control, Marinade.total_cooling_down,
        checked_add, Option.bind_eq_bind, if_pos h1, Option.some_bind, if_neg h2,
        Option.none_bind]
  · rw [if_neg (by omega)]
    simp only [Marinade.total_lamports_under_control, Marinade.total_cooling_down,
      checked_add, Option.bind_eq_bind, if_neg h1, Option.none_bind]

/-- C5: whenever `total_lamports_under_control()` is defined with value
`t`, `total_virtual_staked_lamports()` returns
`max 0 (t − circulating_ticket_balance)` (the saturating subtraction,
clamped at zero) and never fails. -/
theorem total_virtual_staked_lamports_spec (s : Marinade) (t : Nat)
    (h : s.total_lamports_under_control = some t) :
    s.total_virtual_staked_lamports =
      some ((max 0 ((t : Int) - (s.circulating_ticket_balance : Int))).toNat) := by
  simp only [Marinade.total_virtual_staked_lamports, h, Option.bind_eq_bind,
    Option.some_bind, pure, Option.some.injEq]
  omega

/-- Witness for C5 at the concrete `sampleState`:
`total_lamports_under_control = 1180` and the virtual staked total is
`max 0 (1180 − 200) = 980`. -/
theorem total_virtual_staked_lamports_spec_witness :
    sampleState.total_virtual_staked_lamports = some 980 := by
  have h := total_virtual_staked_lamports_spec sampleState 1180 (by decide)
  rw [h]
  decide

/-- C3: `shares_from_value` returns `value` unchanged when the total
virtual value or the total share supply is zero and
`floor(value * total_shares / total_virtual_value)` otherwise;
`value_from_shares` fails with a propagated error (never a panic) when
`total_shares = 0` and returns
`floor(shares * total_virtual_value / total_shares)` otherwise; and for
`u64` inputs the wide intermediate products stay below `2^128`, so the
`u128` multiplication cannot overflow. -/
theorem calc_conversion_spec (value total_virtual_value total_shares shares : Nat) :
    (total_virtual_value = 0 ∨ total_shares = 0 →
      shares_from_value value total_virtual_value total_shares = .ok value) ∧
    (total_virtual_value ≠ 0 → total_shares ≠ 0 →
      shares_from_value value total_virtual_value total_shares =
        .ok (value * total_shares / total_virtual_value)) ∧
    (total_shares = 0 →
      value_from_shares shares total_virtual_value total_shares =
        .error .calculationFailure) ∧
    (total_shares ≠ 0 →
      value_from_shares shares total_virtual_value total_shares =
        .ok (shares * total_virtual_value / total_shares)) ∧
    (value < U64_MOD → total_shares < U64_MOD →
      value * total_shares < 2 ^ 128) ∧
    (shares < U64_MOD → total_virtual_value < U64_MOD →
      shares * total_virtual_value < 2 ^ 128) := by
  refine ⟨fun h => ?_, fun h1 h2 => ?_, fun h => ?_, fun h => ?_,
    fun h1 h2 => ?_, fun h1 h2 => ?_⟩
  · simp [shares_from_value, h]
  · simp [shares_from_value, h1, h2]
  · simp [value_from_shares, h]
  · simp [value_from_shares, h]
  · calc value * total_shares ≤ (U64_MOD - 1) * (U64_MOD - 1) :=
          Nat.mul_le_mul (by omega) (by omega)
      _ < 2 ^ 128 := by norm_num [U64_MOD]
  · calc shares * total_virtual_value ≤ (U64_MOD - 1) * (U64_MOD - 1) :=
          Nat.mul_le_mul (by omega) (by omega)
      _ < 2 ^ 128 := by norm_num [U64_MOD]

/-- Witness for C3 at concrete inputs: bootstrap pricing at a zero total,
floor pricing at `7 * 6 / 4 = 10`, the error on a zero share supply, and
floor pricing `10 * 4 / 6 = 6` on the value side. -/
theorem calc_conversion_spec_witness :
    shares_from_value 5 0 3 = .ok 5 ∧
    shares_from_value 7 4 6 = .ok 10 ∧
    value_from_shares 9 4 0 = .error .calculationFailure ∧
    value_from_shares 10 4 6 = .ok 6 :=
  ⟨(calc_conversion_spec 5 0 3 0).1 (Or.inl rfl),
   (calc_conversion_spec 7 4 6 0).2.1 (by decide) (by decide),
   (calc_conversion_spec 0 4 0 9).2.2.1 rfl,
   (calc_conversion_spec 0 4 6 10).2.2.2.1 (by decide)⟩

/-- C2: converting a value to shares and back never over-pays: whenever
`total_value > 0` and both conversions succeed, the round-tripped value
is at most the original (floor rounding is biased toward the
protocol). -/
theorem round_trip_never_overpays
    (value total_value total_shares sh v : Nat)
    (htv : 0 < total_value)
    (h1 : shares_from_value value total_value total_shares = .ok sh)
    (h2 : value_from_shares sh total_value total_shares = .ok v) :
    v ≤ value := by
  by_cases hts : total_shares = 0
  · simp [value_from_shares, hts] at h2
  · have htv0 : total_value ≠ 0 := by omega
    rw [shares_from_value, if_neg (by tauto)] at h1
    rw [value_from_shares, if_neg hts] at h2
    obtain rfl : value * total_shares / total_value = sh := Except.ok.inj h1
    obtain rfl : value * total_shares / total_value * total_value / total_shares = v :=
      Except.ok.inj h2
    have hmul : value * total_shares / total_value * total_value ≤ value * total_shares :=
      Nat.div_mul_le_self _ _
    calc value * total_shares / total_value * total_value / total_shares
        ≤ value * total_shares / total_shares := Nat.div_le_div_right hmul
      _ = value := Nat.mul_div_cancel value (by omega)

/-- Witness for C2 at `value = 10`, `total_value = 3`,
`total_shares = 7`: the round trip gives `10 → 23 → 9 ≤ 10`. -/
theorem round_trip_never_overpays_witness :
    shares_from_value 10 3 7 = .ok 23 ∧
    value_from_shares 23 3 7 = .ok 9 ∧
    (9 : Nat) ≤ 10 :=
  ⟨by decide, by decide,
   round_trip_never_overpays 10 3 7 23 9 (by decide) (by decide) (by decide)⟩

/-- C6: `check_stake_amount_and_validator` succeeds exactly when the
stake record is delegated to the expected validator with the delegated
amount equal to the expected amount; it fails with
`InvalidInstructionData` when delegated to a different validator, with
`StakeNotDelegated` when there is no delegation, and with
`StakeAccountNotUpdatedYet` when the validator matches but the delegated
amount differs; being a pure function, it mutates nothing. -/
theorem check_stake_amount_and_validator_spec (ss : StakeState)
    (expected_stake_amount validator_vote_pubkey : Nat) :
    (check_stake_amount_and_validator ss expected_stake_amount validator_vote_pubkey
        = .ok () ↔
      ss.delegation = some ⟨validator_vote_pubkey, expected_stake_amount⟩) ∧
    (ss.delegation = none →
      check_stake_amount_and_validator ss expected_stake_amount validator_vote_pubkey
        = .error (.common .stakeNotDelegated)) ∧
    (∀ d, ss.delegation = some d → d.voter_pubkey ≠ validator_vote_pubkey →
      check_stake_amount_and_validator ss expected_stake_amount validator_vote_pubkey
        = .error .invalidInstructionData) ∧
    (∀ d, ss.delegation = some d → d.voter_pubkey = validator_vote_pubkey →
      d.stake ≠ expected_stake_amount →
      check_stake_amount_and_validator ss expected_stake_amount validator_vote_pubkey
        = .error (.common .stakeAccountNotUpdatedYet)) := by
  cases hd : ss.delegation with
  | none =>
      simp [check_stake_amount_and_validator, hd]
  | some d =>
      obtain ⟨dv, dstake⟩ := d
      by_cases hv : dv = validator_vote_pubkey
      · subst hv
        by_cases hs : dstake = expected_stake_amount
        · subst hs
          simp [check_stake_amount_and_validator, hd]
        · simp [check_stake_amount_and_validator, hd, hs]
      · simp [check_stake_amount_and_validator, hd, hv]

/-- Witness for C6 at the spec's worked example: a record delegated to
validator `5` with `1000` staked succeeds against `(1000, 5)`, yields
the not-updated-yet error against `(999, 5)`, the not-delegated error on
an undelegated record, and the instruction-data error against the wrong
validator `6`. -/
theorem check_stake_amount_and_validator_spec_witness :
    check_stake_amount_and_validator (.stake ⟨5, 1000⟩) 1000 5 = .ok () ∧
    check_stake_amount_and_validator (.stake ⟨5, 1000⟩) 999 5
      = .error (.common .stakeAccountNotUpdatedYet) ∧
    check_stake_amount_and_validator .uninitialized 1000 5
      = .error (.common .stakeNotDelegated) ∧
    check_stake_amount_and_validator (.stake ⟨5, 1000⟩) 1000 6
      = .error .invalidInstructionData :=
  ⟨(check_stake_amount_and_validator_spec (.stake ⟨5, 1000⟩) 1000 5).1.mpr rfl,
   (check_stake_amount_and_validator_spec (.stake ⟨5, 1000⟩) 999 5).2.2.2
     ⟨5, 1000⟩ rfl rfl (by decide),
   (check_stake_amount_and_validator_spec .uninitialized 1000 5).2.1 rfl,
   (check_stake_amount_and_validator_spec (.stake ⟨5, 1000⟩) 1000 6).2.2.1
     ⟨5, 1000⟩ rfl (by decide)⟩

/-- C7: the decrement mutators are atomic on underflow: `on_msol_burn`
with `amount > msol_supply` and `on_transfer_from_reserve` with
`amount > available_reserve_balance` each return the non-fatal
`CalculationFailure` error without producing an updated record (the
caller's record is untouched); on success each returns the record with
exactly the respective counter decreased by `amount` and every other
field unchanged.  The increment mutators `on_msol_mint` and
`on_transfer_to_reserve` only ever increase their counters, so within
the ledger's mutator set `msol_supply` decreases only via the burn and
`available_reserve_balance` only via the transfer from the reserve. -/
theorem decrement_mutators_atomic (s : Marinade) (amount : Nat) :
    (s.msol_supply < amount →
      s.on_msol_burn amount = .error (.common .calculationFailure)) ∧
    (amount ≤ s.msol_supply →
      s.on_msol_burn amount = .ok { s with msol_supply := s.msol_supply - amount }) ∧
    (s.available_reserve_balance < amount →
      s.on_transfer_from_reserve amount = .error (.common .calculationFailure)) ∧
    (amount ≤ s.available_reserve_balance →
      s.on_transfer_from_reserve amount
        = .ok { s with available_reserve_balance :=
            s.available_reserve_balance - amount }) ∧
    (∀ s2, s.on_msol_mint amount = some s2 →
      s2 = { s with msol_supply := s.msol_supply + amount }) ∧
    (∀ s2, s.on_transfer_to_reserve amount = some s2 →
      s2 = { s with available_reserve_balance :=
        s.available_reserve_balance + amount }) := by
  refine ⟨fun h => ?_, fun h => ?_, fun h => ?_, fun h => ?_,
    fun s2 h => ?_, fun s2 h => ?_⟩
  · rw [Marinade.on_msol_burn, checked_sub, if_neg (by omega)]
  · rw [Marinade.on_msol_burn, checked_sub, if_pos h]
  · rw [Marinade.on_transfer_from_reserve, checked_sub, if_neg (by omega)]
  · rw [Marinade.on_transfer_from_reserve, checked_sub, if_pos h]
  · by_cases hc : s.msol_supply + amount < U64_MOD
    · simp only [Marinade.on_msol_mint, checked_add, if_pos hc, Option.bind_eq_bind,
        Option.some_bind, pure, Option.some.injEq] at h
      exact h.symm
    · simp only [Marinade.on_msol_mint, checked_add, if_neg hc, Option.bind_eq_bind,
        Option.none_bind, reduceCtorEq] at h
  · by_cases hc : s.available_reserve_balance + amount < U64_MOD
    · simp only [Marinade.on_transfer_to_reserve, checked_add, if_pos hc,
        Option.bind_eq_bind, Option.some_bind, pure, Option.some.injEq] at h
      exact h.symm
    · simp only [Marinade.on_transfer_to_reserve, checked_add, if_neg hc,
        Option.bind_eq_bind, Option.none_bind, reduceCtorEq] at h

/-- A ledger state with an empty derivative supply, for the spec's
`on_derivative_burn`-on-zero example. -/
def emptySupplyState : Marinade := { sampleState with msol_supply := 0 }

/-- Witness for C7: burning `1` from a supply of `0` fails with the
calculation error; at `sampleState` a burn of `1` gives supply `499`, a
reserve withdrawal of `60 > 50` fails, one of `20` gives reserve `30`,
a mint of `5` gives supply `505`, and a transfer to the reserve of `5`
gives reserve `55`. -/
theorem decrement_mutators_atomic_witness :
    emptySupplyState.on_msol_burn 1 = .error (.common .calculationFailure) ∧
    sampleState.on_msol_burn 1 = .ok { sampleState with msol_supply := 499 } ∧
    sampleState.on_transfer_from_reserve 60 = .error (.common .calculationFailure) ∧
    sampleState.on_transfer_from_reserve 20
      = .ok { sampleState with available_reserve_balance := 30 } ∧
    { sampleState with msol_supply := 505 }
      = { sampleState with msol_supply := sampleState.msol_supply + 5 } ∧
    { sampleState with available_reserve_balance := 55 }
      = { sampleState with available_reserve_balance :=
          sampleState.available_reserve_balance + 5 } := by
  refine ⟨(decrement_mutators_atomic emptySupplyState 1).1 (by decide), ?_,
    (decrement_mutators_atomic sampleState 60).2.2.1 (by decide), ?_,
    (decrement_mutators_atomic sampleState 5).2.2.2.2.1
      { sampleState with msol_supply := 505 } (by decide),
    (decrement_mutators_atomic sampleState 5).2.2.2.2.2
      { sampleState with available_reserve_balance := 55 } (by decide)⟩
  · rw [(decrement_mutators_atomic sampleState 1).2.1 (by decide)]
    decide
  · rw [(decrement_mutators_atomic sampleState 20).2.2.2.1 (by decide)]
    decide

/-- A ledger state whose reserve alone saturates `u64`:
`available_reserve_balance = 2^64 − 1`, every other balance zero, and the
staking cap at its `u64` maximum. -/
def maxReserveState : Marinade :=
  { sampleState with
    validator_system := ⟨0⟩
    stake_system := ⟨0⟩
    emergency_cooling_down := 0
    available_reserve_balance := U64_MOD - 1
    staking_sol_cap := U64_MOD - 1 }

/-- C8 counterexample: at `maxReserveState` with an incoming amount of
`1`, the sum `total_lamports_under_control() + 1 = 2^64` exceeds the cap,
but the checked add overflows first, so the code fails with
`InvalidArgument` instead of the capacity error `Custom 3782` the claim
requires. -/
theorem check_staking_cap_error_kind_counterexample :
    maxReserveState.total_lamports_under_control = some (U64_MOD - 1) ∧
    maxReserveState.staking_sol_cap < (U64_MOD - 1) + 1 ∧
    maxReserveState.check_staking_cap 1 = some (.error .invalidArgument) ∧
    maxReserveState.check_staking_cap 1 ≠ some (.error (.custom 3782)) := by
  decide

/-- C8 (amended): whenever `total_lamports_under_control()` is defined
with value `t` and the cap is a `u64` value, `check_staking_cap incoming`
succeeds (returning unit, mutating nothing) exactly when
`t + incoming ≤ staking_sol_cap`; when the sum exceeds the cap it fails —
with the capacity error `Custom 3782` when the sum still fits in `u64`,
and with `InvalidArgument` when the checked add of the incoming amount
overflows `u64`. -/
theorem check_staking_cap_spec (s : Marinade) (incoming t : Nat)
    (ht : s.total_lamports_under_control = some t)
    (hcap : s.staking_sol_cap < U64_MOD) :
    (s.check_staking_cap incoming = some (.ok ()) ↔
      t + incoming ≤ s.staking_sol_cap) ∧
    (s.staking_sol_cap < t + incoming → t + incoming < U64_MOD →
      s.check_staking_cap incoming = some (.error (.custom 3782))) ∧
    (U64_MOD ≤ t + incoming →
      s.check_staking_cap incoming = some (.error .invalidArgument)) := by
  by_cases hadd : t + incoming < U64_MOD
  · by_cases hgt : s.staking_sol_cap < t + incoming
    · have hc : s.check_staking_cap incoming = some (.error (.custom 3782)) := by
        simp [Marinade.check_staking_cap, ht, checked_add, hadd, hgt, pure]
      rw [hc]
      exact ⟨⟨fun h => absurd h (by decide), fun h => absurd h (by omega)⟩,
        fun _ _ => rfl, fun h => absurd h (by omega)⟩
    · have hc : s.check_staking_cap incoming = some (.ok ()) := by
        simp [Marinade.check_staking_cap, ht, checked_add, hadd, hgt, pure]
      rw [hc]
      exact ⟨⟨fun _ => by omega, fun _ => rfl⟩,
        fun h _ => absurd h hgt, fun h => absurd h (by omega)⟩
  · have hc : s.check_staking_cap incoming = some (.error .invalidArgument) := by
      simp [Marinade.check_staking_cap, ht, checked_add, hadd, pure]
    rw [hc]
    exact ⟨⟨fun h => absurd h (by decide), fun h => absurd h (by omega)⟩,
      fun _ h => absurd h (by omega), fun _ => rfl⟩

/-- Witness for C8 at `sampleState` (`total = 1180`, cap `100000`):
an incoming `10` passes, an incoming `99000` hits the capacity error,
and an incoming `2^64` overflows the checked add into
`InvalidArgument`. -/
theorem check_staking_cap_spec_witness :
    sampleState.check_staking_cap 10 = some (.ok ()) ∧
    sampleState.check_staking_cap 99000 = some (.error (.custom 3782)) ∧
    sampleState.check_staking_cap U64_MOD = some (.error .invalidArgument) :=
  ⟨(check_staking_cap_spec sampleState 10 1180 (by decide) (by decide)).1.mpr
     (by decide),
   (check_staking_cap_spec sampleState 99000 1180 (by decide) (by decide)).2.1
     (by decide) (by decide),
   (check_staking_cap_spec sampleState U64_MOD 1180 (by decide) (by decide)).2.2
     (by decide)⟩

/-- C9: `check_treasury_msol_account` errors (with `InvalidArgument`)
exactly when the supplied account's address differs from the stored
treasury account; when the address matches it returns `Ok true` iff the
account is owned by the token program and its data unpacks to a token
account whose mint is `msol_mint`, and otherwise returns the boolean
`Ok false` (wrong owner, unparsable data, or wrong mint) rather than an
error. -/
theorem check_treasury_msol_account_spec (s : Marinade) (acc : AccountInfo) :
    (s.check_treasury_msol_account acc = .error .invalidArgument ↔
      acc.key ≠ s.treasury_msol_account) ∧
    (acc.key = s.treasury_msol_account →
      (s.check_treasury_msol_account acc = .ok true ↔
        acc.owner = spl_token_ID ∧
          ∃ ta, acc.unpacked = some ta ∧ ta.mint = s.msol_mint)) ∧
    (acc.key = s.treasury_msol_account →
      (s.check_treasury_msol_account acc = .ok false ↔
        ¬(acc.owner = spl_token_ID ∧
          ∃ ta, acc.unpacked = some ta ∧ ta.mint = s.msol_mint))) := by
  obtain ⟨k, o, u⟩ := acc
  by_cases hk : k = s.treasury_msol_account
  · by_cases ho : o = spl_token_ID
    · cases u with
      | none => simp [Marinade.check_treasury_msol_account, hk, ho]
      | some ta =>
          by_cases hm : ta.mint = s.msol_mint
          · simp [Marinade.check_treasury_msol_account, hk, ho, hm]
          · simp [Marinade.check_treasury_msol_account, hk, ho, hm]
    · cases u <;> simp [Marinade.check_treasury_msol_account, hk, ho]
  · simp [Marinade.check_treasury_msol_account, hk]

/-- Witness for C9 against `sampleState` (treasury address `88`, mint
`77`): the matching token account passes with `true`; a wrong owner, a
wrong mint and unparsable data each give `false`; a wrong address gives
the hard error. -/
theorem check_treasury_msol_account_spec_witness :
    sampleState.check_treasury_msol_account ⟨88, spl_token_ID, some ⟨77⟩⟩ = .ok true ∧
    sampleState.check_treasury_msol_account ⟨88, 5, some ⟨77⟩⟩ = .ok false ∧
    sampleState.check_treasury_msol_account ⟨88, spl_token_ID, some ⟨76⟩⟩ = .ok false ∧
    sampleState.check_treasury_msol_account ⟨88, spl_token_ID, none⟩ = .ok false ∧
    sampleState.check_treasury_msol_account ⟨99, spl_token_ID, some ⟨77⟩⟩
      = .error .invalidArgument :=
  ⟨(check_treasury_msol_account_spec sampleState ⟨88, spl_token_ID, some ⟨77⟩⟩).2.1
     rfl |>.mpr ⟨rfl, ⟨77⟩, rfl, rfl⟩,
   (check_treasury_msol_account_spec sampleState ⟨88, 5, some ⟨77⟩⟩).2.2
     rfl |>.mpr (fun h => absurd h.1 (by decide)),
   (check_treasury_msol_account_spec sampleState ⟨88, spl_token_ID, some ⟨76⟩⟩).2.2
     rfl |>.mpr (fun h => by
       obtain ⟨-, ta, hta, hmint⟩ := h
       obtain rfl : TokenAccount.mk 76 = ta := Option.some.inj hta
       exact absurd hmint (by decide)),
   (check_treasury_msol_account_spec sampleState ⟨88, spl_token_ID, none⟩).2.2
     rfl |>.mpr (fun h => by
       obtain ⟨-, ta, hta, -⟩ := h
       exact Option.noConfusion hta),
   (check_treasury_msol_account_spec sampleState ⟨99, spl_token_ID, some ⟨77⟩⟩).1.mpr
     (by decide)⟩

end Marinade2Proof
